import Mathlib

/-!
Verification of the MUT test-run orchestrator (`mysql-test/mut.py`).

The definitions below are a shallow embedding of the orchestrator's main
loop (lines 652-886), its helpers `_print_elapsed_time`, `_report_error`,
`_exec_and_report`, `_read_disabled_tests`, `find_tests`, and the startup
option validation (lines 437-446).

Modelling conventions:
* A test case's lifecycle hooks (`check_prerequisites`, `setup`, `run`,
  `get_result`, `record`, `cleanup`) are pure descriptions of what the
  call would do: return a boolean, or raise a `MUTLibError` with a
  message (`PhaseResult`).  The mask-global post-processing that runs
  inside the same `try` block as `test_case.run()` (lines 734-747) can
  only fail with `MUTLibError` like `run` itself, so it is folded into
  the `run` description.
* Observable actions (hook invocations, status lines, printed messages)
  are recorded as an `Event` trace, so that claims of the form "cleanup
  is invoked", "get_result is not called", "SKIP is reported" are
  statements about the trace.
* Python truthiness of the repeatable list options (`None` or a
  non-empty list) is modelled by `List` with `[]` playing `None`.
-/

namespace Mut

/-- Result of calling a lifecycle hook that returns a boolean or raises
a `MUTLibError` carrying `errmsg`. -/
inductive PhaseResult where
  | ok (b : Bool)
  | err (msg : String)
  deriving Repr, DecidableEq

/-- Result of calling `get_result()`, which returns a pair
`(flag, messages)` or raises a `MUTLibError`.  The second tuple
component is modelled as a list of strings; `[]` plays Python's falsy
`None`/empty value at line 824. -/
inductive GetResultOutcome where
  | ok (flag : Bool) (msgs : List String)
  | err (msg : String)
  deriving Repr, DecidableEq

/-- One instantiated test case: its identity (`suite`, fname `name`) and
the behaviour of each lifecycle hook when the orchestrator calls it. -/
structure TestCase where
  suite : String
  name : String
  isLong : Bool
  checkPrerequisites : PhaseResult
  setup : PhaseResult
  run : PhaseResult
  getResult : GetResultOutcome
  record : PhaseResult
  cleanup : PhaseResult
  deriving Repr, DecidableEq

/-- The configuration consumed by the run loop (from `opt`).
`debugMode` is `verbosity >= 2` (line 433). -/
structure Options where
  startTest : Option String
  stopTest : Option String
  skipLong : Bool
  record : Bool
  force : Bool
  debugMode : Bool
  skipCleanup : Bool
  deriving Repr, DecidableEq

/-- Observable actions of the orchestrator while processing tests.
`reported` is a `_report_error` call: it carries the test fname, the
suite-qualified name written to the screen, the mode tag (`SKIP` or
`FAIL`) and the message.  `printedExtra` is a bare `print` of an error
message (`extra_message` in `_exec_and_report`, `run_msg` at line 800,
or `results[1]` at line 824). -/
inductive Event where
  | instantiated (name : String)
  | calledIsLong (name : String)
  | calledCheckPrereq (name : String)
  | calledSetup (name : String)
  | calledRun (name : String)
  | calledGetResult (name : String)
  | calledRecord (name : String)
  | calledCleanup (name : String)
  | reported (name : String) (testName : String) (mode : String) (message : String)
  | wrotePass (name : String)
  | wroteFail (name : String)
  | wroteRecord (name : String)
  | printedExtra (message : String)
  deriving Repr, DecidableEq

/-- The test fname an event is attributable to, if any. -/
def eventName : Event → Option String
  | .instantiated n => some n
  | .calledIsLong n => some n
  | .calledCheckPrereq n => some n
  | .calledSetup n => some n
  | .calledRun n => some n
  | .calledGetResult n => some n
  | .calledRecord n => some n
  | .calledCleanup n => some n
  | .reported n _ _ _ => some n
  | .wrotePass n => some n
  | .wroteFail n => some n
  | .wroteRecord n => some n
  | .printedExtra _ => none

/-- How the loop body for one test ends: fall through to the next test
(`continue` or normal end), `break` out of the loop (line 835), or
raise an exception that escapes to the handler at line 859. -/
inductive StepExit where
  | next
  | halt
  | abort (msg : String)
  deriving Repr, DecidableEq

/-- Everything one iteration of the test loop contributes: its event
trace, the names appended to the global `failed_tests` and
`skipped_tests` lists, the increment of `num_tests_run`, and how the
iteration ends.  The loop body never reads those globals, so its
effect is a pure delta. -/
structure TestOutcome where
  events : List Event
  failedNames : List String
  skippedNames : List String
  passCount : Nat
  exit : StepExit
  deriving Repr, DecidableEq

/-- Python `p == s[0:len(p)]`, the prefix test used for `--start-test`
and `--stop-test` (lines 615, 626, 660, 668). -/
def pyPrefixEq (p s : String) : Bool := p == s.take p.length

/-- The suite-qualified display name built at line 676: the suite, a
dot, and the test fname. -/
def qualifiedName (t : TestCase) : String := t.suite ++ "." ++ t.name

/-- The manifest rows whose first field equals the suite-qualified test
name — the rows the loop at lines 700-704 reports (one SKIP line per
matching row). -/
def disabledMatch (dl : List (List String)) (testName : String) : List (List String) :=
  dl.filter (fun row => row.headD "" == testName)

/-- Exit of the `setup`-failed path: `_exec_and_report` calls the
`exception_procedure` (`test_case.cleanup`, line 726) outside any
`try`, so a `MUTLibError` raised by it escapes the loop body. -/
def setupFailExit (t : TestCase) : StepExit :=
  match t.cleanup with
  | .err m => .abort m
  | .ok _ => .next

/-- Tail of the loop body shared by every path that reaches the cleanup
call at line 807: append the unconditional `cleanup` invocation (its
`MUTLibError` is caught, lines 806-811), print `results[1]` when
non-empty (line 824), and apply the force check (line 834). -/
def finishTest (opt : Options) (t : TestCase) (evs : List Event) (runOk : Bool)
    (results : Option (List String)) (passCount : Nat)
    (failedNames : List String) : TestOutcome :=
  let evs := evs ++ [Event.calledCleanup t.name]
  let evs := evs ++ (match results with
    | some msgs => if msgs ≠ [] then [Event.printedExtra (String.join msgs)] else []
    | none => [])
  { events := evs, failedNames := failedNames, skippedNames := [],
    passCount := passCount,
    exit := if !runOk && !opt.force then .halt else .next }

/-- The `run_ok` section of the loop body (lines 757-796): in record
mode, write `RECORD` and call `record()` — a `MUTLibError` raised
there (line 765 is outside any `try`) escapes the loop body before
the cleanup call; in debug mode, only print; otherwise call
`get_result()` (its `MUTLibError` is caught, lines 785-789) and
write `[pass]`/`[FAIL]`, appending to `failed_tests` on a mismatch
(line 795). -/
def mutResultSection (opt : Options) (t : TestCase) (base : List Event) : TestOutcome :=
  if opt.record then
    match t.record with
    | .err m =>
      { events := base ++ [Event.wroteRecord t.name, Event.calledRecord t.name],
        failedNames := [], skippedNames := [], passCount := 0, exit := .abort m }
    | .ok _ =>
      finishTest opt t (base ++ [Event.wroteRecord t.name, Event.calledRecord t.name])
        true none 0 []
  else if opt.debugMode then
    finishTest opt t base true none 0 []
  else
    match t.getResult with
    | .ok true msgs =>
      finishTest opt t (base ++ [Event.calledGetResult t.name, Event.wrotePass t.name])
        true (some msgs) 1 []
    | .ok false msgs =>
      finishTest opt t (base ++ [Event.calledGetResult t.name, Event.wroteFail t.name])
        false (some msgs) 0 [t.name]
    | .err e =>
      finishTest opt t (base ++ [Event.calledGetResult t.name, Event.wroteFail t.name])
        false (some ["Test results cannot be established.\n", e ++ "\n"]) 0 [t.name]

/-- The run/record/compare section of the loop body (lines 729-835),
entered with `base` holding the trace up to and including the
`test_case.run()` call.  After the `try`/`except MUTLibError` at
lines 733-755, `run_ok` is false exactly when `run` returned falsy
(then `run_msg` is `None`, printed as the string `None` at line 800)
or raised outside debug mode (then `run_msg` is the error message);
in debug mode a domain error from `run` is swallowed (lines
750-752). -/
def mutMainRun (opt : Options) (t : TestCase) (testName : String)
    (base : List Event) : TestOutcome :=
  match t.run with
  | .ok true => mutResultSection opt t base
  | .ok false =>
    finishTest opt t
      (base ++ [Event.reported t.name testName "FAIL" "Test execution failed.",
                Event.printedExtra "None"])
      false none 0 [t.name]
  | .err e =>
    if opt.debugMode then mutResultSection opt t base
    else
      finishTest opt t
        (base ++ [Event.reported t.name testName "FAIL" "Test execution failed.",
                  Event.printedExtra e])
        false none 0 [t.name]

/-- One iteration of the test loop after the start/stop sequencing
filters (lines 672-835): instantiation (line 688), the disabled-test
check (lines 697-706, one `_report_error` per matching manifest row),
the long-test check (line 709, `is_long` is only called when
`--skip-long` is set), `check_prerequisites` via `_exec_and_report`
with no exception procedure (lines 716-720), `setup` via
`_exec_and_report` with `test_case.cleanup` as exception procedure
(lines 722-727), then the run section. -/
def runOneTest (opt : Options) (dl : List (List String)) (t : TestCase) : TestOutcome :=
  let testName := qualifiedName t
  let instEv := [Event.instantiated t.name]
  let ms := disabledMatch dl testName
  if ms ≠ [] then
    { events := instEv ++
        ms.map (fun _ => Event.reported t.name testName "SKIP" "Test marked as disabled."),
      failedNames := [], skippedNames := ms.map (fun _ => t.name),
      passCount := 0, exit := .next }
  else
  let longEvs := if opt.skipLong then [Event.calledIsLong t.name] else []
  if opt.skipLong && t.isLong then
    { events := instEv ++ longEvs ++
        [Event.reported t.name testName "SKIP" "Test marked as long running test."],
      failedNames := [], skippedNames := [t.name], passCount := 0, exit := .next }
  else
  let evs1 := instEv ++ longEvs ++ [Event.calledCheckPrereq t.name]
  match t.checkPrerequisites with
  | .ok false =>
    { events := evs1 ++
        [Event.reported t.name testName "SKIP" "Cannot establish resources needed to run test."],
      failedNames := [], skippedNames := [t.name], passCount := 0, exit := .next }
  | .err e =>
    { events := evs1 ++
        [Event.reported t.name testName "SKIP" "Cannot establish resources needed to run test.",
         Event.printedExtra e],
      failedNames := [], skippedNames := [t.name], passCount := 0, exit := .next }
  | .ok true =>
    let evs2 := evs1 ++ [Event.calledSetup t.name]
    match t.setup with
    | .ok false =>
      { events := evs2 ++
          [Event.reported t.name testName "SKIP" "Cannot establish setup conditions to run test.",
           Event.calledCleanup t.name],
        failedNames := [], skippedNames := [t.name], passCount := 0,
        exit := setupFailExit t }
    | .err e =>
      { events := evs2 ++
          [Event.reported t.name testName "SKIP" "Cannot establish setup conditions to run test.",
           Event.printedExtra e, Event.calledCleanup t.name],
        failedNames := [], skippedNames := [t.name], passCount := 0,
        exit := setupFailExit t }
    | .ok true =>
      mutMainRun opt t testName (evs2 ++ [Event.calledRun t.name])

/-- The mutable state threaded through the test loop: the
`start_sequence` flag (lines 512-514, cleared at line 661), the
`stop_testing` flag (line 655), `num_tests_run` (line 654) and the
module-level `failed_tests`/`skipped_tests` lists (lines 598-599),
plus the accumulated event trace. -/
structure LoopState where
  startSequence : Bool
  stopTesting : Bool
  numTestsRun : Nat
  failedTests : List String
  skippedTests : List String
  events : List Event
  deriving Repr, DecidableEq

/-- Apply one iteration's delta to the loop state. -/
def applyOutcome (st : LoopState) (o : TestOutcome) : LoopState :=
  { st with
    events := st.events ++ o.events,
    failedTests := st.failedTests ++ o.failedNames,
    skippedTests := st.skippedTests ++ o.skippedNames,
    numTestsRun := st.numTestsRun + o.passCount }

/-- Result of running the loop over the worklist: the final state, the
tests never reached because of `break` or an escaped exception, and
the exception message if one escaped (caught at line 859). -/
structure LoopResult where
  st : LoopState
  remaining : List TestCase
  abortMsg : Option String
  deriving Repr, DecidableEq

/-- The `--start-test` skip condition of lines 659-663: `start_sequence`
is still set and the marker is not a prefix of this test's name. -/
def startSkipFlag (opt : Options) (t : TestCase) (st : LoopState) : Bool :=
  st.startSequence &&
    !(match opt.startTest with
      | some p => pyPrefixEq p t.name
      | none => false)

/-- The `stop_testing` value after the `--stop-test` check of lines
666-668 for this test. -/
def stopFlag (opt : Options) (t : TestCase) (st : LoopState) : Bool :=
  match opt.stopTest with
  | some p => st.stopTesting || pyPrefixEq p t.name
  | none => st.stopTesting

/-- The loop state after the sequencing checks for one test: on the
fall-through path `start_sequence` is false afterwards whether it was
just cleared at line 661 or already clear, and `stop_testing` holds
the value computed at lines 666-668. -/
def afterFlags (opt : Options) (t : TestCase) (st : LoopState) : LoopState :=
  { st with startSequence := false, stopTesting := stopFlag opt t st }

/-- The test loop (lines 656-835).  Per iteration: the `--start-test`
skip (lines 659-663, before instantiation), the `--stop-test` check
(lines 666-670), then the loop body `runOneTest`; `break` at line 835
or an escaped `MUTLibError` stops the loop with the rest of the
worklist unprocessed. -/
def runLoop (opt : Options) (dl : List (List String)) :
    List TestCase → LoopState → LoopResult
  | [], st => ⟨st, [], none⟩
  | t :: rest, st =>
    if startSkipFlag opt t st then runLoop opt dl rest st
    else
      let st2 := afterFlags opt t st
      if stopFlag opt t st then runLoop opt dl rest st2
      else
        let st3 := applyOutcome st2 (runOneTest opt dl t)
        match (runOneTest opt dl t).exit with
        | .next => runLoop opt dl rest st3
        | .halt => ⟨st3, rest, none⟩
        | .abort m => ⟨st3, rest, some m⟩

/-- Split a list of characters at a separator (every occurrence). -/
def charSplit (sep : Char) : List Char → List (List Char)
  | [] => [[]]
  | c :: cs =>
    let rest := charSplit sep cs
    if c = sep then [] :: rest
    else match rest with
      | [] => [[c]]
      | r :: rs => (c :: r) :: rs

/-- One line through `csv.reader` (line 228), restricted to the
unquoted comma-separated records the disabled manifest uses: a blank
line yields the empty record `[]`, otherwise the line splits on commas. -/
def csvRow (line : String) : List String :=
  if line = "" then []
  else (charSplit ',' line.data).map (fun cs => String.mk cs)

/-- Body of `_read_disabled_tests` (lines 228-231): for each parsed row,
`row[0][0]` is indexed without a guard, so an empty record (blank
line) raises `IndexError` on `row[0]` and an empty first field raises
`IndexError` on `row[0][0]`; rows whose first field starts with `#`
are dropped, the rest are kept in order. -/
def readDisabledRows : List String → Except String (List (List String))
  | [] => .ok []
  | line :: rest =>
    let row := csvRow line
    match row.head? with
    | none => .error "IndexError: list index out of range"
    | some f =>
      match f.data.head? with
      | none => .error "IndexError: string index out of range"
      | some c =>
        if c = '#' then readDisabledRows rest
        else
          match readDisabledRows rest with
          | .error e => .error e
          | .ok rows => .ok (row :: rows)

/-- `_read_disabled_tests` (lines 223-232): `open("disabled")` raises
`IOError` when the file is absent (there is no handler), otherwise the
lines are parsed by `readDisabledRows`.  The file is modelled as
`none` (absent) or `some lines`. -/
def readDisabledTests : Option (List String) → Except String (List (List String))
  | none => .error "IOError: no such file or directory: disabled"
  | some lines => readDisabledRows lines

/-- Initial loop state (lines 597-599, 654-655). -/
def initState (startSeq : Bool) : LoopState :=
  { startSequence := startSeq, stopTesting := false, numTestsRun := 0,
    failedTests := [], skippedTests := [], events := [] }

/-- Outcome of a whole run given an already-discovered, already-sorted
worklist: the loop result plus what the `finally` block (lines
864-886) did.  `shutdownRan`/`removeFilesRan` record whether
`shutdown_spawned_servers` / `remove_files` were invoked. -/
structure RunResult where
  loop : LoopState
  remaining : List TestCase
  abortMsg : Option String
  shutdownRan : Bool
  removeFilesRan : Bool
  exitStatus : Nat
  deriving Repr, DecidableEq

/-- Whether the run starts in start-sequence mode: a `--start-test`
marker was given and matches some discovered test as a prefix (lines
510-514 and 611-620). -/
def startSeqFlag (opt : Options) (tests : List TestCase) : Bool :=
  match opt.startTest with
  | none => false
  | some p => tests.any (fun t => pyPrefixEq p t.name)

/-- The option set after the `--stop-test` validity check (lines
623-631): a stop marker matching no discovered test is cleared. -/
def effectiveOptions (opt : Options) (tests : List TestCase) : Options :=
  { opt with stopTest := (match opt.stopTest with
    | none => none
    | some p => if tests.any (fun t => pyPrefixEq p t.name) then some p else none) }

/-- The run from the `--start-test`/`--stop-test` validity checks to
process exit (lines 611-886).  `spawnedServers` is
`server_list.num_spawned_servers()` at teardown time.

Reading the disabled manifest (line 634) happens before the `try` at
line 652, so its exception escapes the whole run: no test is
attempted and no teardown runs (modelled as `.error`).

In the `finally` block, `shutdown_spawned_servers` runs when cleanup
is not skipped and spawned servers exist; `remove_files` runs whenever
cleanup is not skipped, because `server_list.cleanup_list > 0`
compares a list with an integer, which is always true under Python 2's
inter-type ordering.  An exception caught at line 859 sets
`exit_status = 1` (line 861). -/
def runFull (opt : Options) (spawnedServers : Nat) (tests : List TestCase)
    (disabledFile : Option (List String)) : Except String RunResult :=
  match readDisabledTests disabledFile with
  | .error e => .error e
  | .ok dl =>
    let r := runLoop (effectiveOptions opt tests) dl tests
      (initState (startSeqFlag opt tests))
    let doCleanup := !opt.skipCleanup
    .ok { loop := r.st, remaining := r.remaining, abortMsg := r.abortMsg,
          shutdownRan := doCleanup && spawnedServers != 0,
          removeFilesRan := doCleanup,
          exitStatus := if r.abortMsg.isSome then 1 else 0 }

/-! ### Test discovery (`find_tests`, lines 235-323) -/

/-- A `(directory, root, fname)` test reference tuple (line 290). -/
abbrev TestRef := String × String × String

/-- One file reported by `os.walk`: the directory path `root` and the
file name. -/
structure WalkEntry where
  root : String
  file : String
  deriving Repr, DecidableEq

/-- The filter configuration `find_tests` reads from `opt` and `args`.
Each repeatable option defaults to Python `None` and only ever becomes
a non-empty list, so `[]` models `None`. -/
structure FindOptions where
  suites : List String
  skipTest : List String
  skipSuites : List String
  wildcard : List String
  like : List String
  skipTests : List String
  deriving Repr, DecidableEq

/-- Python slice `s[a:b]` for non-negative bounds. -/
def pySlice (s : String) (a b : Nat) : String := (s.take b).drop a

/-- Python `s[-2:]`. -/
def lastTwo (s : String) : String := s.drop (s.length - 2)

/-- Python `s.endswith(suf)`. -/
def pyEndsWith (s suf : String) : Bool := suf == s.drop (s.length - suf.length)

/-- Occurrence of `p` as a contiguous sublist of `s`
(Python `p in s` on strings). -/
def listContains (p : List Char) : List Char → Bool
  | [] => p = []
  | c :: cs => p.isPrefixOf (c :: cs) || listContains p cs

/-- Python `sub in s` for strings. -/
def pyIn (sub s : String) : Bool := listContains sub.data s.data

/-- `os.path.splitext` (line 265) restricted to the file names that
occur here: split at the last dot; a name with no dot, or only a
leading dot, has an empty extension. -/
def splitextIdx : List Char → Option Nat
  | [] => none
  | c :: cs =>
    match splitextIdx cs with
    | some i => some (i + 1)
    | none => if c = '.' then some 0 else none

/-- Split a file name into `(fname, ext)` at its last dot. -/
def splitext (f : String) : String × String :=
  match splitextIdx f.data with
  | some i => if i = 0 then (f, "") else (pySlice f 0 i, f.drop i)
  | none => (f, "")

/-- Filter decision for one walked file (the body of the double loop in
`find_tests`, lines 243-318): suite allow-list, suite-name derivation
(`main` for the top-level test directory), template exclusion,
explicit `args` allow-list, `--skip-test`, `--skip-suite`, the
`.py`/`__init__`/`mutlib` restriction, the performance-suite guard,
then exactly one of the `--do-tests` prefix branch, the
`--run-tests-like` substring branch, the `--skip-tests`
inverse-prefix branch, or unconditional inclusion.  Returns the
references contributed to `test_files`. -/
def findTestsEntry (opt : FindOptions) (args : List String) (path : String)
    (e : WalkEntry) : List TestRef :=
  let start := path.length + 1
  let tEnd := if lastTwo e.root = "/t" ∨ lastTwo e.root = "\\t" then
      e.root.length - 2 else e.root.length
  let directory0 := pySlice e.root start tEnd
  if opt.suites ≠ [] ∧ directory0 = "" ∧ "main" ∉ opt.suites then [] else
  if opt.suites ≠ [] ∧ directory0 ≠ "" ∧ directory0 ∉ opt.suites then [] else
  let directory := if directory0 = "" then "main" else directory0
  let fe := splitext e.file
  let fname := fe.1
  let ext := fe.2
  if pyEndsWith fname "_template" then [] else
  if args ≠ [] ∧ fname ∉ args ∧ (directory ++ "." ++ fname) ∉ args then [] else
  if opt.skipTest ≠ [] ∧ (fname ∈ opt.skipTest ∨ (directory ++ "." ++ fname) ∈ opt.skipTest) then [] else
  if opt.skipSuites ≠ [] ∧ directory ∈ opt.skipSuites then [] else
  if ext = ".py" ∧ fname ≠ "__init__" ∧ fname ≠ "mutlib" then
    if directory = "performance" ∧ "performance" ∉ opt.suites then []
    else if opt.wildcard ≠ [] then
      if opt.wildcard.any (fun w => w == fname.take w.length) then [(directory, e.root, fname)] else []
    else if opt.like ≠ [] then
      if opt.like.any (fun l => pyIn l fname) then [(directory, e.root, fname)] else []
    else if opt.skipTests ≠ [] then
      if opt.skipTests.any (fun skip => skip != fname.take skip.length) then [(directory, e.root, fname)] else []
    else [(directory, e.root, fname)]
  else []

/-- `find_tests(path)` over the flattened `os.walk` output, in walk
order (the `suites_found`/`sys.path` bookkeeping has no effect on the
returned list and is omitted). -/
def findTests (opt : FindOptions) (args : List String) (path : String)
    (walk : List WalkEntry) : List TestRef :=
  walk.foldl (fun acc e => acc ++ findTestsEntry opt args path e) []

/-! ### Startup validation and entry (lines 430-446, 601-609) -/

/-- The option-mixing checks at lines 437-446, in source order; a
failing check is a `parser.error`, which prints and exits before any
discovery. -/
def validateOptions (wildcard : List String) (debugMode : Bool) (record : Bool)
    (args : List String) : Except String Unit :=
  if wildcard ≠ [] ∧ args.length > 0 then
    .error "Cannot mix --do-test= and a list of tests."
  else if debugMode ∧ args.length > 1 then
    .error "Cannot mix --debug and a list of tests."
  else if record ∧ args.length ≠ 1 then
    .error "Must specify a single test when using record."
  else .ok ()

/-- Lexicographic order on character lists by code point, matching
Python's string comparison for the names that occur here. -/
def charListLe : List Char → List Char → Bool
  | [], _ => true
  | _ :: _, [] => false
  | a :: as, b :: bs => if a = b then charListLe as bs else decide (a < b)

/-- Python tuple comparison on `(directory, root, fname)`. -/
def refLe (a b : TestRef) : Bool :=
  if a.1 = b.1 then
    if a.2.1 = b.2.1 then charListLe a.2.2.data b.2.2.data
    else charListLe a.2.1.data b.2.1.data
  else charListLe a.1.data b.1.data

/-- Stable insertion into a sorted list. -/
def insertSorted (le : TestRef → TestRef → Bool) (x : TestRef) :
    List TestRef → List TestRef
  | [] => [x]
  | y :: ys => if le x y then x :: y :: ys else y :: insertSorted le x ys

/-- Stable ascending sort. -/
def sortRefs (le : TestRef → TestRef → Bool) : List TestRef → List TestRef
  | [] => []
  | x :: xs => insertSorted le x (sortRefs le xs)

/-- `test_files.sort(reverse=(opt.sort == 'desc'))` (line 609);
CPython's stable descending sort is reverse, stable ascending sort,
reverse. -/
def pySort (desc : Bool) (refs : List TestRef) : List TestRef :=
  if desc then (sortRefs refLe refs.reverse).reverse else sortRefs refLe refs

/-- The startup sequence from option validation to the run: the checks
at lines 437-446, then discovery over the suite and test directories
(lines 601-602), the sort (line 609), instantiation of each reference
(`bind`, standing for the `__import__` at line 688) and the run loop.
A `parser.error` exits before `find_tests` is ever called. -/
def mutStartup (opt : Options) (fopt : FindOptions) (args : List String)
    (sortDesc : Bool) (spawnedServers : Nat)
    (suitePath testPath : String) (suiteWalk testWalk : List WalkEntry)
    (bind : TestRef → TestCase)
    (disabledFile : Option (List String)) : Except String RunResult :=
  match validateOptions fopt.wildcard opt.debugMode opt.record args with
  | .error e => .error e
  | .ok () =>
    let refs := findTests fopt args suitePath suiteWalk ++
      findTests fopt args testPath testWalk
    runFull opt spawnedServers ((pySort sortDesc refs).map bind) disabledFile

/-! ### Elapsed-time display (`_print_elapsed_time`, lines 162-171) -/

/-- Python `int(x)`: truncation toward zero, on an exact rational. -/
def pyInt (q : ℚ) : Int := Int.tdiv q.num q.den

/-- The displayed elapsed time of `_print_elapsed_time`: the duration
times 100 truncated to an integer, with a computed 0 replaced by 1
(lines 168-170). -/
def printElapsedTime (elapsed : ℚ) : Int :=
  let displayTime := pyInt (elapsed * 100)
  if displayTime = 0 then 1 else displayTime

/-- Modelled from the spec: the displayed time is the elapsed time in
hundredths of a second, truncated to an integer and floored to a
minimum of 1 displayed unit. -/
def specDisplayCentis (elapsed : ℚ) : Int := max 1 (pyInt (elapsed * 100))

/-! ### Concrete fixtures used to exercise the model -/

/-- Default options: no sequencing markers, nothing skipped, no record,
no force, verbosity 0. -/
def oDefault : Options :=
  { startTest := none, stopTest := none, skipLong := false, record := false,
    force := false, debugMode := false, skipCleanup := false }

/-- Options with debug mode (verbosity 2). -/
def oDebug : Options := { oDefault with debugMode := true }

/-- Options with the skip-cleanup debug flag. -/
def oSkipCleanup : Options := { oDefault with skipCleanup := true }

/-- Options with start and stop markers both set to `b`. -/
def oStartStopB : Options :=
  { oDefault with startTest := some "b", stopTest := some "b" }

/-- A well-behaved test case named `n` in suite `main`. -/
def mkTest (n : String) : TestCase :=
  { suite := "main", name := n, isLong := false,
    checkPrerequisites := .ok true, setup := .ok true, run := .ok true,
    getResult := .ok true [], record := .ok true, cleanup := .ok true }

/-- A test whose `check_prerequisites` raises a `MUTLibError`. -/
def tPrereqErr : TestCase := { mkTest "x" with checkPrerequisites := .err "no servers" }

/-- A test whose `setup` raises a `MUTLibError`. -/
def tSetupErr : TestCase := { mkTest "x" with setup := .err "cannot spawn" }

/-- A test whose `run` raises a `MUTLibError`. -/
def tRunErr : TestCase := { mkTest "x" with run := .err "boom" }

/-- A test whose result comparison fails. -/
def tResFail : TestCase := { mkTest "f" with getResult := .ok false ["diff"] }

/-- Discovery filters with two `--skip-tests` inverse prefixes `a`, `b`
and no other filter. -/
def fSkipAB : FindOptions :=
  { suites := [], skipTest := [], skipSuites := [], wildcard := [], like := [],
    skipTests := ["a", "b"] }

/-- Options with baseline-record mode requested. -/
def oRecord : Options := { oDefault with record := true }

/-- Discovery filters with nothing supplied. -/
def fEmpty : FindOptions :=
  { suites := [], skipTest := [], skipSuites := [], wildcard := [], like := [],
    skipTests := [] }

/-- Fallback result used when extracting from an `Except`. -/
def badRun : RunResult :=
  { loop := initState false, remaining := [], abortMsg := none,
    shutdownRan := false, removeFilesRan := false, exitStatus := 0 }

/-- Extract the `RunResult` of a completed run. -/
def resultOf (r : Except String RunResult) : RunResult :=
  match r with
  | .ok v => v
  | .error _ => badRun

/-- The run of C4's counterexample: force off, skip-cleanup on, a
failing test followed by another test. -/
def c4badRes : RunResult :=
  resultOf (runFull oSkipCleanup 1 [tResFail, mkTest "z"] (some []))

/-- The run of C4's witness: force off, cleanup not skipped, a failing
test followed by another test. -/
def c4okRes : RunResult :=
  resultOf (runFull oDefault 1 [tResFail, mkTest "z"] (some []))

/-- The run of C6's counterexample: `--start-test=b`, `--stop-test=b`
over the worklist `[a, b, c]`. -/
def c6Res : RunResult :=
  resultOf (runFull oStartStopB 0 [mkTest "a", mkTest "b", mkTest "c"] (some []))

/-- Whether an event is attributable to the test with fname `n` or to
no test at all. -/
def attributable (n : String) (e : Event) : Bool :=
  match eventName e with
  | none => true
  | some m => m == n

/-! ### Helper lemmas about one loop iteration -/

/-- Unpack `attributable`. -/
theorem attributable_eq (n : String) (e : Event) (h : attributable n e = true) :
    eventName e = none ∨ eventName e = some n := by
  rcases he : eventName e with _ | m
  · exact Or.inl rfl
  · right
    unfold attributable at h
    rw [he] at h
    simp only [beq_iff_eq] at h
    rw [h]

/-- The shared loop tail only adds events of its own test or anonymous
prints. -/
theorem finishTest_all (opt : Options) (t : TestCase) (evs : List Event) (runOk : Bool)
    (results : Option (List String)) (pc : Nat) (fn : List String)
    (h : evs.all (attributable t.name) = true) :
    (finishTest opt t evs runOk results pc fn).events.all (attributable t.name) = true := by
  simp only [finishTest]
  rcases results with _ | msgs
  · simp [List.all_append, h, attributable, eventName]
  · by_cases hm : msgs = [] <;>
      simp [hm, List.all_append, h, attributable, eventName]

/-- The record/debug/compare block only adds events of its own test or
anonymous prints. -/
theorem mutResultSection_all (opt : Options) (t : TestCase)
    (base : List Event) (h : base.all (attributable t.name) = true) :
    (mutResultSection opt t base).events.all (attributable t.name) = true := by
  unfold mutResultSection
  repeat' split
  all_goals
    first
      | (apply finishTest_all
         simp [List.all_append, h, attributable, eventName])
      | simp [List.all_append, h, attributable, eventName]

/-- The run/record/compare section only adds events of its own test or
anonymous prints. -/
theorem mutMainRun_all (opt : Options) (t : TestCase) (testName : String)
    (base : List Event) (h : base.all (attributable t.name) = true) :
    (mutMainRun opt t testName base).events.all (attributable t.name) = true := by
  unfold mutMainRun
  repeat' split
  all_goals
    first
      | (apply mutResultSection_all _ _ _ h)
      | (apply finishTest_all
         simp [List.all_append, h, attributable, eventName])

/-- Every event a loop iteration emits is attributable to that test or
to no test at all. -/
theorem runOneTest_all (opt : Options) (dl : List (List String)) (t : TestCase) :
    (runOneTest opt dl t).events.all (attributable t.name) = true := by
  simp only [runOneTest]
  repeat' split
  all_goals
    first
      | (apply mutMainRun_all
         simp [List.all_append, attributable, eventName]
         done)
      | (simp [List.all_append, List.all_map, attributable, eventName,
          List.all_eq_true]
         done)

/-- Membership form of `runOneTest_all`. -/
theorem runOneTest_eventName (opt : Options) (dl : List (List String)) (t : TestCase) :
    ∀ e ∈ (runOneTest opt dl t).events,
      eventName e = none ∨ eventName e = some t.name := by
  intro e he
  exact attributable_eq _ _ (List.all_eq_true.mp (runOneTest_all opt dl t) e he)

/-- The shared loop tail keeps earlier events. -/
theorem finishTest_base (opt : Options) (t : TestCase) (evs : List Event) (runOk : Bool)
    (results : Option (List String)) (pc : Nat) (fn : List String) :
    ∀ e ∈ evs, e ∈ (finishTest opt t evs runOk results pc fn).events := by
  intro e he
  simp [finishTest, List.mem_append, he]

/-- The record/debug/compare block keeps the events accumulated before
it. -/
theorem mutResultSection_base (opt : Options) (t : TestCase)
    (base : List Event) :
    ∀ e ∈ base, e ∈ (mutResultSection opt t base).events := by
  intro e he
  unfold mutResultSection
  repeat' split
  all_goals
    first
      | (apply finishTest_base
         simp [List.mem_append, he])
      | simp [List.mem_append, he]

/-- The run/record/compare section keeps the events accumulated before
it. -/
theorem mutMainRun_base (opt : Options) (t : TestCase) (testName : String)
    (base : List Event) :
    ∀ e ∈ base, e ∈ (mutMainRun opt t testName base).events := by
  intro e he
  unfold mutMainRun
  repeat' split
  all_goals
    first
      | (exact mutResultSection_base _ _ _ e he)
      | (apply finishTest_base
         simp [List.mem_append, he])

/-- Every loop iteration records the instantiation of its test (line
688) in its trace. -/
theorem runOneTest_instantiated (opt : Options) (dl : List (List String)) (t : TestCase) :
    Event.instantiated t.name ∈ (runOneTest opt dl t).events := by
  simp only [runOneTest]
  repeat' split
  all_goals
    first
      | (apply mutMainRun_base
         simp [List.mem_append])
      | simp [List.mem_append]

/-- The tail's bookkeeping fields are the ones passed in, and its exit
is the force check of line 834. -/
theorem finishTest_fields (opt : Options) (t : TestCase) (evs : List Event) (runOk : Bool)
    (results : Option (List String)) (pc : Nat) (fn : List String) :
    (finishTest opt t evs runOk results pc fn).failedNames = fn ∧
    (finishTest opt t evs runOk results pc fn).exit =
      (if !runOk && !opt.force then .halt else .next) := by
  simp [finishTest]

/-- The record/debug/compare block appends to `failed_tests` on exactly
its comparison-failure paths; there the force check breaks the loop
when force mode is off. -/
theorem mutResultSection_failed (opt : Options) (t : TestCase)
    (base : List Event) :
    (mutResultSection opt t base).failedNames = [] ∨
    ((mutResultSection opt t base).failedNames = [t.name] ∧
      (opt.force = false → (mutResultSection opt t base).exit = .halt)) := by
  unfold mutResultSection
  repeat' split
  all_goals
    first
      | (left; simp [finishTest]; done)
      | (right
         refine ⟨by simp [finishTest], fun hf => ?_⟩
         simp [finishTest, hf])

/-- The run/record/compare section appends to `failed_tests` on exactly
its two FAIL paths; on those paths the force check breaks the loop
when force mode is off. -/
theorem mutMainRun_failed (opt : Options) (t : TestCase) (testName : String)
    (base : List Event) :
    (mutMainRun opt t testName base).failedNames = [] ∨
    ((mutMainRun opt t testName base).failedNames = [t.name] ∧
      (opt.force = false → (mutMainRun opt t testName base).exit = .halt)) := by
  unfold mutMainRun
  repeat' split
  all_goals
    first
      | (exact mutResultSection_failed opt t base)
      | (right
         refine ⟨by simp [finishTest], fun hf => ?_⟩
         simp [finishTest, hf])

/-- A loop iteration appends its test to `failed_tests` on at most the
two FAIL paths, and there the force check at line 834 breaks the loop
when force mode is off. -/
theorem runOneTest_failed (opt : Options) (dl : List (List String)) (t : TestCase) :
    (runOneTest opt dl t).failedNames = [] ∨
    ((runOneTest opt dl t).failedNames = [t.name] ∧
      (opt.force = false → (runOneTest opt dl t).exit = .halt)) := by
  simp only [runOneTest]
  repeat' split
  all_goals first | (apply mutMainRun_failed) | (left; simp)

/-! ### Helper lemmas about the loop -/

/-- The loop only ever appends to the event trace: events present when
it starts are still present when it ends. -/
theorem runLoop_mem_events (opt : Options) (dl : List (List String))
    (e : Event) :
    ∀ (ts : List TestCase) (st : LoopState),
      e ∈ st.events → e ∈ (runLoop opt dl ts st).st.events := by
  intro ts
  induction ts with
  | nil => intro st he; simpa [runLoop] using he
  | cons t rest ih =>
    intro st he
    simp only [runLoop]
    repeat' split
    all_goals
      first
        | (exact ih _ (by simpa [applyOutcome, afterFlags, List.mem_append] using Or.inl he))
        | (exact ih _ (by simpa [afterFlags] using he))
        | (simp [applyOutcome, afterFlags, List.mem_append]
           exact Or.inl (Or.inl he))
        | (simp [applyOutcome, afterFlags, List.mem_append]
           exact Or.inl he)

/-- Every event the loop adds is attributable to one of the tests of
the worklist (or to none). -/
theorem runLoop_eventName (opt : Options) (dl : List (List String)) :
    ∀ (ts : List TestCase) (st : LoopState) (e : Event),
      e ∈ (runLoop opt dl ts st).st.events →
      e ∈ st.events ∨ eventName e = none ∨ ∃ v ∈ ts, eventName e = some v.name := by
  intro ts
  induction ts with
  | nil => intro st e he; exact Or.inl (by simpa [runLoop] using he)
  | cons t rest ih =>
    intro st e he
    simp only [runLoop] at he
    have weaken : ∀ st' : LoopState, st'.events = st.events →
        e ∈ (runLoop opt dl rest st').st.events →
        e ∈ st.events ∨ eventName e = none ∨ ∃ v ∈ t :: rest, eventName e = some v.name := by
      intro st' hst' h
      rcases ih st' e h with h | h | ⟨v, hv, hn⟩
      · exact Or.inl (hst' ▸ h)
      · exact Or.inr (Or.inl h)
      · exact Or.inr (Or.inr ⟨v, List.mem_cons_of_mem t hv, hn⟩)
    have fromOwn : e ∈ (runOneTest opt dl t).events →
        eventName e = none ∨ ∃ v ∈ t :: rest, eventName e = some v.name := by
      intro h
      rcases runOneTest_eventName opt dl t e h with h | h
      · exact Or.inl h
      · exact Or.inr ⟨t, List.mem_cons_self t rest, h⟩
    repeat' split at he
    all_goals
      first
        | (refine weaken _ ?_ he
           simp [afterFlags]
           done)
        | (rcases ih _ e he with h | h | ⟨v, hv, hn⟩
           · simp [applyOutcome, afterFlags, List.mem_append] at h
             rcases h with h | h
             · exact Or.inl h
             · exact Or.inr (fromOwn h)
           · exact Or.inr (Or.inl h)
           · exact Or.inr (Or.inr ⟨v, List.mem_cons_of_mem t hv, hn⟩))
        | (simp [applyOutcome, afterFlags, List.mem_append] at he
           rcases he with h | h
           · exact Or.inl h
           · exact Or.inr (fromOwn h))

/-- While `start_sequence` is set, tests whose name does not carry the
start marker as a prefix are skipped with no state change at all
(lines 659-663). -/
theorem runLoop_skip_start (opt : Options) (dl : List (List String)) (p : String)
    (hp : opt.startTest = some p) :
    ∀ (pre ts : List TestCase) (st : LoopState),
      st.startSequence = true →
      (∀ u ∈ pre, pyPrefixEq p u.name = false) →
      runLoop opt dl (pre ++ ts) st = runLoop opt dl ts st := by
  intro pre
  induction pre with
  | nil => intro ts st _ _; rfl
  | cons u rest ih =>
    intro ts st hseq hmatch
    have hu : pyPrefixEq p u.name = false := hmatch u (List.mem_cons_self u rest)
    have hstep : runLoop opt dl ((u :: rest) ++ ts) st = runLoop opt dl (rest ++ ts) st := by
      simp [runLoop, startSkipFlag, hseq, hp, hu]
    rw [hstep]
    exact ih ts st hseq (fun v hv => hmatch v (List.mem_cons_of_mem u hv))

/-- With force mode off, either no test fails and `failed_tests` is
unchanged, or the loop breaks at the one failing test: the worklist
splits around it, the tests after it are exactly the unprocessed
remainder, and every event added on the way is attributable to the
failing test, an earlier one, or no test. -/
theorem runLoop_force_off (opt : Options) (dl : List (List String))
    (hf : opt.force = false) :
    ∀ (ts : List TestCase) (st : LoopState),
      (runLoop opt dl ts st).st.failedTests = st.failedTests ∨
      ∃ pre t rem, ts = pre ++ t :: rem ∧
        (runLoop opt dl ts st).remaining = rem ∧
        (runLoop opt dl ts st).st.failedTests = st.failedTests ++ [t.name] ∧
        ∀ e ∈ (runLoop opt dl ts st).st.events,
          e ∈ st.events ∨ eventName e = none ∨
            ∃ v ∈ pre ++ [t], eventName e = some v.name := by
  intro ts
  induction ts with
  | nil => intro st; left; simp [runLoop]
  | cons t rest ih =>
    intro st
    have hweak : ∀ (pre : List TestCase) (t' : TestCase) (v : TestCase),
        v ∈ pre ++ [t'] → v ∈ (t :: pre) ++ [t'] := by
      intro pre t' v hv
      simp only [List.mem_append, List.mem_cons] at hv ⊢
      tauto
    have hown : ∀ e ∈ (runOneTest opt dl t).events, ∀ (pre : List TestCase),
        eventName e = none ∨ ∃ v ∈ t :: pre, eventName e = some v.name := by
      intro e he pre
      rcases runOneTest_eventName opt dl t e he with h | h
      · exact Or.inl h
      · exact Or.inr ⟨t, List.mem_cons_self t pre, h⟩
    by_cases h1 : startSkipFlag opt t st = true
    · have heq : runLoop opt dl (t :: rest) st = runLoop opt dl rest st := by
        simp [runLoop, h1]
      rw [heq]
      rcases ih st with h | ⟨pre, t', rem, hts, hrem, hfail, hev⟩
      · exact Or.inl h
      · right
        refine ⟨t :: pre, t', rem, by rw [hts, List.cons_append], hrem, hfail, ?_⟩
        intro e he
        rcases hev e he with h | h | ⟨v, hv, hn⟩
        · exact Or.inl h
        · exact Or.inr (Or.inl h)
        · exact Or.inr (Or.inr ⟨v, hweak pre t' v hv, hn⟩)
    · by_cases h2 : stopFlag opt t st = true
      · have heq : runLoop opt dl (t :: rest) st =
            runLoop opt dl rest (afterFlags opt t st) := by
          simp [runLoop, h1, h2]
        rw [heq]
        rcases ih (afterFlags opt t st) with
          h | ⟨pre, t', rem, hts, hrem, hfail, hev⟩
        · left; simpa [afterFlags] using h
        · right
          refine ⟨t :: pre, t', rem, by rw [hts, List.cons_append], hrem,
            by simpa [afterFlags] using hfail, ?_⟩
          intro e he
          rcases hev e he with h | h | ⟨v, hv, hn⟩
          · exact Or.inl (by simpa [afterFlags] using h)
          · exact Or.inr (Or.inl h)
          · exact Or.inr (Or.inr ⟨v, hweak pre t' v hv, hn⟩)
      · cases hexit : (runOneTest opt dl t).exit with
        | next =>
          have heq : runLoop opt dl (t :: rest) st = runLoop opt dl rest
              (applyOutcome (afterFlags opt t st) (runOneTest opt dl t)) := by
            simp [runLoop, h1, h2, hexit]
          rw [heq]
          rcases runOneTest_failed opt dl t with hfo | ⟨_, hhalt⟩
          · rcases ih (applyOutcome (afterFlags opt t st) (runOneTest opt dl t)) with
              h | ⟨pre, t', rem, hts, hrem, hfail, hev⟩
            · left
              rw [h]
              simp [applyOutcome, afterFlags, hfo]
            · right
              refine ⟨t :: pre, t', rem, by rw [hts, List.cons_append], hrem, ?_, ?_⟩
              · rw [hfail]
                simp [applyOutcome, afterFlags, hfo]
              · intro e he
                rcases hev e he with h | h | ⟨v, hv, hn⟩
                · simp only [applyOutcome, afterFlags, List.mem_append] at h
                  rcases h with h | h
                  · exact Or.inl h
                  · rcases hown e h pre with hn0 | ⟨v, hv0, hn0⟩
                    · exact Or.inr (Or.inl hn0)
                    · refine Or.inr (Or.inr ⟨v, ?_, hn0⟩)
                      simp only [List.mem_append, List.mem_cons] at hv0 ⊢
                      tauto
                · exact Or.inr (Or.inl h)
                · exact Or.inr (Or.inr ⟨v, hweak pre t' v hv, hn⟩)
          · rw [hhalt hf] at hexit
            cases hexit
        | halt =>
          have heq : runLoop opt dl (t :: rest) st =
              ⟨applyOutcome (afterFlags opt t st) (runOneTest opt dl t), rest, none⟩ := by
            simp [runLoop, h1, h2, hexit]
          rw [heq]
          rcases runOneTest_failed opt dl t with hfo | ⟨hfo, _⟩
          · left
            simp [applyOutcome, afterFlags, hfo]
          · right
            refine ⟨[], t, rest, by simp, by simp, by simp [applyOutcome, afterFlags, hfo], ?_⟩
            intro e he
            simp only [applyOutcome, afterFlags, List.mem_append] at he
            rcases he with he | he
            · exact Or.inl he
            · rcases hown e he [] with hn0 | ⟨v, hv0, hn0⟩
              · exact Or.inr (Or.inl hn0)
              · refine Or.inr (Or.inr ⟨v, ?_, hn0⟩)
                simp only [List.mem_append, List.mem_cons] at hv0 ⊢
                tauto
        | abort m =>
          rcases runOneTest_failed opt dl t with hfo | ⟨_, hhalt⟩
          · have heq : runLoop opt dl (t :: rest) st =
                ⟨applyOutcome (afterFlags opt t st) (runOneTest opt dl t), rest, some m⟩ := by
              simp [runLoop, h1, h2, hexit]
            rw [heq]
            left
            simp [applyOutcome, afterFlags, hfo]
          · rw [hhalt hf] at hexit
            cases hexit

/-! ### Claim theorems -/

/-- C1 counterexample: for a test whose `check_prerequisites` raises a
domain error, the orchestrator does report SKIP, but the test's
`cleanup` is invoked zero times — not exactly once as the claim
states (`_exec_and_report` is called with no exception procedure at
line 719 and the loop body `continue`s past the cleanup call). -/
theorem c1_counterexample :
    tPrereqErr.checkPrerequisites = PhaseResult.err "no servers" ∧
    Event.reported "x" "main.x" "SKIP" "Cannot establish resources needed to run test."
      ∈ (runOneTest oDefault [] tPrereqErr).events ∧
    ¬ (runOneTest oDefault [] tPrereqErr).events.count (Event.calledCleanup "x") = 1 := by
  decide

/-- C1 (amended): for every test reaching the prerequisite phase whose
`check_prerequisites` returns false or raises a domain error, the
orchestrator reports SKIP (never FAIL), does not call `run`, and
moves on to the next test — but the test's `cleanup` is not invoked
at all on this path. -/
theorem c1_theorem (opt : Options) (dl : List (List String)) (t : TestCase)
    (hdl : disabledMatch dl (qualifiedName t) = [])
    (hlong : (opt.skipLong && t.isLong) = false)
    (hpre : t.checkPrerequisites = PhaseResult.ok false ∨
      ∃ e, t.checkPrerequisites = PhaseResult.err e) :
    (runOneTest opt dl t).exit = StepExit.next ∧
    (runOneTest opt dl t).failedNames = [] ∧
    (runOneTest opt dl t).skippedNames = [t.name] ∧
    Event.reported t.name (qualifiedName t) "SKIP"
      "Cannot establish resources needed to run test." ∈ (runOneTest opt dl t).events ∧
    Event.calledRun t.name ∉ (runOneTest opt dl t).events ∧
    Event.calledCleanup t.name ∉ (runOneTest opt dl t).events := by
  rcases hpre with hp | ⟨e, hp⟩ <;> cases hsl : opt.skipLong <;>
    first
      | (have hil : t.isLong = false := by simpa [hsl] using hlong
         simp [runOneTest, hdl, hsl, hil, hp])
      | simp [runOneTest, hdl, hsl, hp]

/-- C1 witness: the amended claim at a concrete prerequisite-raising
test. -/
theorem c1_witness :
    tPrereqErr.checkPrerequisites = PhaseResult.err "no servers" ∧
    (runOneTest oDefault [] tPrereqErr).exit = StepExit.next ∧
    Event.calledCleanup "x" ∉ (runOneTest oDefault [] tPrereqErr).events := by
  have h := c1_theorem oDefault [] tPrereqErr (by decide) (by decide)
    (Or.inr ⟨"no servers", rfl⟩)
  exact ⟨rfl, h.1, h.2.2.2.2.2⟩

/-- C2 (confirmed): for every test reaching the setup phase whose
`setup` returns false or raises a resource error, the orchestrator
does not call `run`, does call the test's `cleanup` (exactly once,
as the exception procedure of `_exec_and_report`, line 726), and
reports SKIP, never FAIL. -/
theorem c2_theorem (opt : Options) (dl : List (List String)) (t : TestCase)
    (hdl : disabledMatch dl (qualifiedName t) = [])
    (hlong : (opt.skipLong && t.isLong) = false)
    (hpre : t.checkPrerequisites = PhaseResult.ok true)
    (hsetup : t.setup = PhaseResult.ok false ∨ ∃ e, t.setup = PhaseResult.err e) :
    (runOneTest opt dl t).failedNames = [] ∧
    (runOneTest opt dl t).skippedNames = [t.name] ∧
    Event.reported t.name (qualifiedName t) "SKIP"
      "Cannot establish setup conditions to run test." ∈ (runOneTest opt dl t).events ∧
    Event.calledRun t.name ∉ (runOneTest opt dl t).events ∧
    (runOneTest opt dl t).events.count (Event.calledCleanup t.name) = 1 := by
  rcases hsetup with hs | ⟨e, hs⟩ <;> cases hsl : opt.skipLong <;>
    first
      | (have hil : t.isLong = false := by simpa [hsl] using hlong
         simp [runOneTest, hdl, hsl, hil, hpre, hs, List.count_cons, List.count_nil,
           List.count_append])
      | simp [runOneTest, hdl, hsl, hpre, hs, List.count_cons, List.count_nil,
          List.count_append]

/-- C2 witness: the confirmed claim at a concrete setup-raising test. -/
theorem c2_witness :
    tSetupErr.setup = PhaseResult.err "cannot spawn" ∧
    Event.calledRun "x" ∉ (runOneTest oDefault [] tSetupErr).events ∧
    (runOneTest oDefault [] tSetupErr).events.count (Event.calledCleanup "x") = 1 := by
  have h := c2_theorem oDefault [] tSetupErr (by decide) (by decide) (by decide)
    (Or.inr ⟨"cannot spawn", rfl⟩)
  exact ⟨rfl, h.2.2.2.1, h.2.2.2.2⟩

/-- C3 counterexample: in debug mode (verbosity 2, possible with a
single selected test) a `MUTLibError` raised by `run` is swallowed
(lines 750-752): the test is not reported FAIL, the message is not
surfaced, and the trace ends with only the cleanup call. -/
theorem c3_counterexample :
    tRunErr.run = PhaseResult.err "boom" ∧ oDebug.debugMode = true ∧
    (runOneTest oDebug [] tRunErr).failedNames = [] ∧
    (runOneTest oDebug [] tRunErr).events =
      [Event.instantiated "x", Event.calledCheckPrereq "x", Event.calledSetup "x",
       Event.calledRun "x", Event.calledCleanup "x"] := by
  decide

/-- C3 (amended): outside debug mode, for every test whose `run` phase
raises a domain error, the orchestrator reports FAIL, surfaces the
error message verbatim, and does not call `get_result`. -/
theorem c3_theorem (opt : Options) (dl : List (List String)) (t : TestCase) (e : String)
    (hdl : disabledMatch dl (qualifiedName t) = [])
    (hlong : (opt.skipLong && t.isLong) = false)
    (hpre : t.checkPrerequisites = PhaseResult.ok true)
    (hsetup : t.setup = PhaseResult.ok true)
    (hdebug : opt.debugMode = false)
    (hrun : t.run = PhaseResult.err e) :
    (runOneTest opt dl t).failedNames = [t.name] ∧
    (runOneTest opt dl t).skippedNames = [] ∧
    Event.reported t.name (qualifiedName t) "FAIL" "Test execution failed."
      ∈ (runOneTest opt dl t).events ∧
    Event.printedExtra e ∈ (runOneTest opt dl t).events ∧
    Event.calledGetResult t.name ∉ (runOneTest opt dl t).events := by
  cases hsl : opt.skipLong <;>
    first
      | (have hil : t.isLong = false := by simpa [hsl] using hlong
         simp [runOneTest, mutMainRun, finishTest, hdl, hsl, hil, hpre, hsetup,
           hdebug, hrun])
      | simp [runOneTest, mutMainRun, finishTest, hdl, hsl, hpre, hsetup,
          hdebug, hrun]

/-- C3 witness: the amended claim at a concrete run-raising test
outside debug mode. -/
theorem c3_witness :
    tRunErr.run = PhaseResult.err "boom" ∧ oDefault.debugMode = false ∧
    (runOneTest oDefault [] tRunErr).failedNames = ["x"] ∧
    Event.printedExtra "boom" ∈ (runOneTest oDefault [] tRunErr).events := by
  have h := c3_theorem oDefault [] tRunErr "boom" (by decide) (by decide) (by decide)
    (by decide) (by decide) rfl
  exact ⟨rfl, rfl, h.1, h.2.2.2.1⟩

/-- C5 (confirmed): for every test whose suite-qualified name appears
in a first field of the disabled manifest, the orchestrator reports
SKIP with the disabled reason and invokes no lifecycle hook of the
test — not `is_long`, `check_prerequisites`, `setup`, `run`,
`get_result`, `record`, nor `cleanup`. -/
theorem c5_theorem (opt : Options) (dl : List (List String)) (t : TestCase)
    (hdl : ∃ row ∈ dl, row.headD "" = qualifiedName t) :
    (runOneTest opt dl t).exit = StepExit.next ∧
    (runOneTest opt dl t).failedNames = [] ∧
    Event.reported t.name (qualifiedName t) "SKIP" "Test marked as disabled."
      ∈ (runOneTest opt dl t).events ∧
    Event.calledIsLong t.name ∉ (runOneTest opt dl t).events ∧
    Event.calledCheckPrereq t.name ∉ (runOneTest opt dl t).events ∧
    Event.calledSetup t.name ∉ (runOneTest opt dl t).events ∧
    Event.calledRun t.name ∉ (runOneTest opt dl t).events ∧
    Event.calledGetResult t.name ∉ (runOneTest opt dl t).events ∧
    Event.calledRecord t.name ∉ (runOneTest opt dl t).events ∧
    Event.calledCleanup t.name ∉ (runOneTest opt dl t).events := by
  obtain ⟨row, hrow, hr⟩ := hdl
  have hr2 : row.head?.getD "" = qualifiedName t := by simpa using hr
  have hne : disabledMatch dl (qualifiedName t) ≠ [] := by
    intro hcontra
    have h2 := List.filter_eq_nil_iff.mp hcontra row hrow
    simp [hr2] at h2
  simp only [runOneTest]
  rw [if_pos hne]
  refine ⟨rfl, rfl, ?_, ?_, ?_, ?_, ?_, ?_, ?_, ?_⟩ <;>
    simp [List.mem_append, List.mem_map]
  exact hne

/-- C5 witness: the confirmed claim at a concrete disabled test. -/
theorem c5_witness :
    (["main.x"] : List String).headD "" = qualifiedName (mkTest "x") ∧
    Event.reported "x" "main.x" "SKIP" "Test marked as disabled."
      ∈ (runOneTest oDefault [["main.x"]] (mkTest "x")).events ∧
    Event.calledSetup "x" ∉ (runOneTest oDefault [["main.x"]] (mkTest "x")).events := by
  have h := c5_theorem oDefault [["main.x"]] (mkTest "x")
    ⟨["main.x"], by decide, rfl⟩
  exact ⟨rfl, h.2.2.1, h.2.2.2.2.2.1⟩

/-- C7 (code-bug evidence): with the two inverse-prefix exclusions `a`
and `b` supplied via `--skip-tests` and no wildcard filters, the file
`t/ab.py` — whose name begins with the supplied skip prefix `a` — is
still returned by discovery: the loop at lines 311-315 appends a test
as soon as any one skip prefix fails to match it, so a test is
excluded only when every supplied prefix matches, contradicting the
option's documented meaning ("exclude tests that begin with this
string"). -/
theorem c7_theorem :
    pyPrefixEq "a" "ab" = true ∧
    findTests fSkipAB [] "./t" [⟨"./t", "ab.py"⟩] = [("main", "./t", "ab")] := by
  decide

/-- C8 (confirmed): when baseline-record mode is requested and the
number of explicitly selected tests is not one, the startup
validation (lines 437-446) rejects the invocation with a
`parser.error` before discovery runs or any test executes. -/
theorem c8_theorem (opt : Options) (fopt : FindOptions) (args : List String)
    (sortDesc : Bool) (spawned : Nat) (sp tp : String)
    (sw tw : List WalkEntry) (bind : TestRef → TestCase)
    (file : Option (List String))
    (hrec : opt.record = true) (hargs : args.length ≠ 1) :
    ∃ msg, mutStartup opt fopt args sortDesc spawned sp tp sw tw bind file =
      Except.error msg := by
  unfold mutStartup validateOptions
  by_cases h1 : fopt.wildcard ≠ [] ∧ args.length > 0
  · rw [if_pos h1]
    exact ⟨_, rfl⟩
  · rw [if_neg h1]
    by_cases h2 : opt.debugMode = true ∧ args.length > 1
    · rw [if_pos h2]
      exact ⟨_, rfl⟩
    · rw [if_neg h2]
      rw [if_pos ⟨hrec, hargs⟩]
      exact ⟨_, rfl⟩

/-- C8 witness: record mode with two selected tests is rejected. -/
theorem c8_witness :
    oRecord.record = true ∧ (["a", "b"] : List String).length ≠ 1 ∧
    ∃ msg, mutStartup oRecord fEmpty ["a", "b"] false 0 "./suite" "./t" [] []
      (fun _ => mkTest "w") none = Except.error msg := by
  refine ⟨rfl, by decide, ?_⟩
  exact c8_theorem oRecord fEmpty ["a", "b"] false 0 "./suite" "./t" [] []
    (fun _ => mkTest "w") none rfl (by decide)

/-- C9 (confirmed): for every nonnegative elapsed duration, the
displayed time of `_print_elapsed_time` equals the duration in
hundredths of a second truncated to an integer, floored to a minimum
of 1 displayed unit, so zero-duration tests are visible. -/
theorem c9_theorem (q : ℚ) (h : 0 ≤ q) :
    printElapsedTime q = specDisplayCentis q := by
  have hq : (0 : ℚ) ≤ q * 100 := mul_nonneg h (by norm_num)
  have hd : 0 ≤ pyInt (q * 100) :=
    Int.tdiv_nonneg (Rat.num_nonneg.mpr hq) (Int.ofNat_nonneg _)
  simp only [printElapsedTime, specDisplayCentis]
  rcases eq_or_ne (pyInt (q * 100)) 0 with hz | hz
  · rw [if_pos hz, hz]
    decide
  · rw [if_neg hz]
    have h1 : 1 ≤ pyInt (q * 100) := by omega
    rw [max_eq_right h1]

/-- C9 witness: a zero-length duration displays as 1. -/
theorem c9_witness : 0 ≤ (0 : ℚ) ∧ printElapsedTime 0 = specDisplayCentis 0 :=
  ⟨le_refl 0, c9_theorem 0 (le_refl 0)⟩

/-- Reading the manifest raises as soon as some line parses to a record
whose first field is empty (the empty record of a blank line
included). -/
theorem readDisabledRows_error :
    ∀ (lines : List String), (∃ line ∈ lines, (csvRow line).headD "" = "") →
      ∃ msg, readDisabledRows lines = Except.error msg := by
  intro lines
  induction lines with
  | nil => rintro ⟨line, h, _⟩; cases h
  | cons l ls ih =>
    rintro ⟨line, hline, hbad⟩
    rcases List.mem_cons.mp hline with rfl | hmem
    · rcases hh : (csvRow line).head? with _ | f
      · refine ⟨"IndexError: list index out of range", ?_⟩
        simp only [readDisabledRows, hh]
      · have hf : f = "" := by
          have h2 := hbad
          rw [List.headD_eq_head?_getD, hh] at h2
          simpa using h2
        subst hf
        refine ⟨"IndexError: string index out of range", ?_⟩
        simp only [readDisabledRows, hh]
        rfl
    · obtain ⟨msg, hmsg⟩ := ih ⟨line, hmem, hbad⟩
      rcases hh : (csvRow l).head? with _ | f
      · refine ⟨"IndexError: list index out of range", ?_⟩
        simp only [readDisabledRows, hh]
      · rcases hc : f.data.head? with _ | c
        · refine ⟨"IndexError: string index out of range", ?_⟩
          simp only [readDisabledRows, hh, hc]
        · by_cases hcomment : c = '#'
          · refine ⟨msg, ?_⟩
            simp only [readDisabledRows, hh, hc, if_pos hcomment, hmsg]
          · refine ⟨msg, ?_⟩
            simp only [readDisabledRows, hh, hc, if_neg hcomment, hmsg]

/-- C10 (confirmed): the orchestrator opens the `disabled` manifest
unconditionally (line 634), before the protected test loop; when the
file is absent, or some line parses to a record whose first field is
empty (a blank line gives the empty record), the read raises an
unhandled exception and the run aborts before any test is
attempted. -/
theorem c10_theorem (opt : Options) (spawned : Nat) (tests : List TestCase)
    (file : Option (List String))
    (hbad : file = none ∨ ∃ lines, file = some lines ∧
      ∃ line ∈ lines, (csvRow line).headD "" = "") :
    ∃ msg, runFull opt spawned tests file = Except.error msg := by
  rcases hbad with rfl | ⟨lines, rfl, hbad⟩
  · exact ⟨_, rfl⟩
  · obtain ⟨msg, hmsg⟩ := readDisabledRows_error lines hbad
    refine ⟨msg, ?_⟩
    simp only [runFull, readDisabledTests, hmsg]

/-- C10 witness: an absent manifest aborts the run before any test. -/
theorem c10_witness :
    (mkTest "a").name = "a" ∧
    ∃ msg, runFull oDefault 0 [mkTest "a"] none = Except.error msg :=
  ⟨rfl, c10_theorem oDefault 0 [mkTest "a"] none (Or.inl rfl)⟩

/-- C4 counterexample: with force off but the skip-cleanup debug flag
set, a failing test stops the run, yet neither the spawned-server
shutdown nor the temp-file deletion executes in the `finally` block
(lines 866-874 are guarded by `--skip-cleanup`). -/
theorem c4_counterexample :
    oSkipCleanup.force = false ∧
    runFull oSkipCleanup 1 [tResFail, mkTest "z"] (some []) = Except.ok c4badRes ∧
    c4badRes.loop.failedTests = ["f"] ∧
    c4badRes.shutdownRan = false ∧ c4badRes.removeFilesRan = false := by
  refine ⟨rfl, by rfl, ?_, ?_, ?_⟩ <;> decide

/-- C4 (amended): with force off and the skip-cleanup debug flag not
set, when some test fails the run stops at the single failing test:
the worklist splits around it, the unprocessed remainder follows it
and no event is attributable to any remaining test, while the final
teardown still executes — temp files are deleted and spawned servers
are shut down whenever any exist. -/
theorem c4_theorem (opt : Options) (spawned : Nat) (tests : List TestCase)
    (file : Option (List String)) (res : RunResult)
    (hf : opt.force = false) (hsc : opt.skipCleanup = false)
    (hnd : (tests.map TestCase.name).Nodup)
    (hrun : runFull opt spawned tests file = Except.ok res)
    (hfail : res.loop.failedTests ≠ []) :
    res.removeFilesRan = true ∧
    (spawned ≠ 0 → res.shutdownRan = true) ∧
    ∃ pre t rem, tests = pre ++ t :: rem ∧
      res.remaining = rem ∧ res.loop.failedTests = [t.name] ∧
      ∀ u ∈ rem, ∀ e ∈ res.loop.events, eventName e ≠ some u.name := by
  simp only [runFull] at hrun
  rcases hread : readDisabledTests file with msg | dl
  · rw [hread] at hrun
    cases hrun
  · rw [hread] at hrun
    simp only [] at hrun
    injection hrun with hres
    subst hres
    have hforce : (effectiveOptions opt tests).force = false := by
      simp [effectiveOptions, hf]
    refine ⟨by simp [hsc], fun hs => by simp [hsc, hs], ?_⟩
    rcases runLoop_force_off (effectiveOptions opt tests) dl hforce tests
        (initState (startSeqFlag opt tests)) with h | h
    · exact absurd (by simpa [initState] using h) hfail
    · obtain ⟨pre, t, rem, hts, hrem, hfailEq, hev⟩ := h
      refine ⟨pre, t, rem, hts, hrem, by simpa [initState] using hfailEq, ?_⟩
      intro u hu e he hcontra
      rcases hev e he with h0 | h0 | ⟨v, hv, hn⟩
      · simp [initState] at h0
      · rw [h0] at hcontra
        cases hcontra
      · rw [hn] at hcontra
        injection hcontra with hname
        have hnd2 : ((pre ++ [t]).map TestCase.name ++ rem.map TestCase.name).Nodup := by
          have hsplit : tests = (pre ++ [t]) ++ rem := by
            rw [hts]
            simp
          rw [hsplit, List.map_append] at hnd
          exact hnd
        have hdisj := (List.nodup_append.mp hnd2).2.2
        refine hdisj (List.mem_map_of_mem TestCase.name hv) ?_
        rw [hname]
        exact List.mem_map_of_mem TestCase.name hu

/-- C4 witness: the amended claim at a concrete run with a failing
test followed by one more test. -/
theorem c4_witness :
    oDefault.force = false ∧ oDefault.skipCleanup = false ∧
    ([tResFail, mkTest "z"].map TestCase.name).Nodup ∧
    runFull oDefault 1 [tResFail, mkTest "z"] (some []) = Except.ok c4okRes ∧
    c4okRes.loop.failedTests ≠ [] ∧
    (c4okRes.removeFilesRan = true ∧
      ((1 : Nat) ≠ 0 → c4okRes.shutdownRan = true) ∧
      ∃ pre t rem, [tResFail, mkTest "z"] = pre ++ t :: rem ∧
        c4okRes.remaining = rem ∧ c4okRes.loop.failedTests = [t.name] ∧
        ∀ u ∈ rem, ∀ e ∈ c4okRes.loop.events, eventName e ≠ some u.name) := by
  refine ⟨rfl, rfl, by decide, by rfl, by decide, ?_⟩
  exact c4_theorem oDefault 1 [tResFail, mkTest "z"] (some []) c4okRes rfl rfl
    (by decide) (by rfl) (by decide)

/-- C6 counterexample: with `--start-test=b` and `--stop-test=b` over
the worklist `[a, b, c]`, the first test matching the start marker is
never instantiated — the stop check at lines 666-670 fires on the
very test the start marker selected, so execution does not begin
there. -/
theorem c6_counterexample :
    oStartStopB.startTest = some "b" ∧ pyPrefixEq "b" "b" = true ∧
    runFull oStartStopB 0 [mkTest "a", mkTest "b", mkTest "c"] (some []) =
      Except.ok c6Res ∧
    Event.instantiated "b" ∉ c6Res.loop.events := by
  refine ⟨rfl, by decide, by rfl, ?_⟩
  decide

/-- C6 (amended): with a start marker that prefix-matches some
discovered test, every test before the first match is skipped without
being instantiated (no event is attributable to it) — in every such
run, whatever the stop marker; and whenever the stop marker (if any)
does not prefix-match that first matching test, execution begins
there: the first matching test is instantiated. -/
theorem c6_theorem (opt : Options) (spawned : Nat) (file : Option (List String))
    (res : RunResult) (p : String) (pre : List TestCase) (t : TestCase)
    (post : List TestCase)
    (hp : opt.startTest = some p)
    (hpre : ∀ u ∈ pre, pyPrefixEq p u.name = false)
    (ht : pyPrefixEq p t.name = true)
    (hnd : ((pre ++ t :: post).map TestCase.name).Nodup)
    (hrun : runFull opt spawned (pre ++ t :: post) file = Except.ok res) :
    (∀ u ∈ pre, ∀ e ∈ res.loop.events, eventName e ≠ some u.name) ∧
    ((∀ q, opt.stopTest = some q → pyPrefixEq q t.name = false) →
      Event.instantiated t.name ∈ res.loop.events) := by
  have hany : ((pre ++ t :: post).any fun u => pyPrefixEq p u.name) = true := by
    rw [List.any_eq_true]
    exact ⟨t, by simp, ht⟩
  have hstart : startSeqFlag opt (pre ++ t :: post) = true := by
    simp only [startSeqFlag, hp]
    exact hany
  simp only [runFull, hstart] at hrun
  rcases hread : readDisabledTests file with msg | dl
  · rw [hread] at hrun
    cases hrun
  · rw [hread] at hrun
    simp only [] at hrun
    injection hrun with hres
    subst hres
    have hp2 : (effectiveOptions opt (pre ++ t :: post)).startTest = some p := by
      simp [effectiveOptions, hp]
    have hskip : runLoop (effectiveOptions opt (pre ++ t :: post)) dl
          (pre ++ t :: post) (initState true) =
        runLoop (effectiveOptions opt (pre ++ t :: post)) dl (t :: post)
          (initState true) :=
      runLoop_skip_start _ dl p hp2 pre (t :: post) (initState true) rfl hpre
    constructor
    · intro u hu e he hcontra
      rw [hskip] at he
      rcases runLoop_eventName (effectiveOptions opt (pre ++ t :: post)) dl
          (t :: post) (initState true) e he with h0 | h0 | ⟨v, hv, hn⟩
      · simp [initState] at h0
      · rw [h0] at hcontra
        cases hcontra
      · rw [hn] at hcontra
        injection hcontra with hname
        have hnd2 : (pre.map TestCase.name ++ (t :: post).map TestCase.name).Nodup := by
          rw [← List.map_append]
          exact hnd
        have hdisj := (List.nodup_append.mp hnd2).2.2
        refine hdisj (List.mem_map_of_mem TestCase.name hu) ?_
        rw [← hname]
        exact List.mem_map_of_mem TestCase.name hv
    · intro hstop
      have hssf : startSkipFlag (effectiveOptions opt (pre ++ t :: post)) t
          (initState true) = false := by
        simp [startSkipFlag, initState, hp2, ht]
      have hsf : stopFlag (effectiveOptions opt (pre ++ t :: post)) t
          (initState true) = false := by
        rcases hq : opt.stopTest with _ | q
        · simp [stopFlag, effectiveOptions, hq, initState]
        · by_cases hfound : ((pre ++ t :: post).any fun u => pyPrefixEq q u.name) = true
          · simp [stopFlag, effectiveOptions, hq, hfound, initState, hstop q hq]
          · simp [stopFlag, effectiveOptions, hq, hfound, initState]
      rw [hskip]
      have hinst : Event.instantiated t.name ∈
          (applyOutcome
            (afterFlags (effectiveOptions opt (pre ++ t :: post)) t (initState true))
            (runOneTest (effectiveOptions opt (pre ++ t :: post)) dl t)).events := by
        simp only [applyOutcome, List.mem_append]
        exact Or.inr (runOneTest_instantiated _ dl t)
      rcases hexit : (runOneTest (effectiveOptions opt (pre ++ t :: post)) dl t).exit
        with _ | _ | m
      · have heq : runLoop (effectiveOptions opt (pre ++ t :: post)) dl (t :: post)
            (initState true) =
            runLoop (effectiveOptions opt (pre ++ t :: post)) dl post
              (applyOutcome
                (afterFlags (effectiveOptions opt (pre ++ t :: post)) t (initState true))
                (runOneTest (effectiveOptions opt (pre ++ t :: post)) dl t)) := by
          simp [runLoop, hssf, hsf, hexit]
        rw [heq]
        exact runLoop_mem_events _ dl _ post _ hinst
      · have heq : runLoop (effectiveOptions opt (pre ++ t :: post)) dl (t :: post)
            (initState true) =
            ⟨applyOutcome
              (afterFlags (effectiveOptions opt (pre ++ t :: post)) t (initState true))
              (runOneTest (effectiveOptions opt (pre ++ t :: post)) dl t), post, none⟩ := by
          simp [runLoop, hssf, hsf, hexit]
        rw [heq]
        exact hinst
      · have heq : runLoop (effectiveOptions opt (pre ++ t :: post)) dl (t :: post)
            (initState true) =
            ⟨applyOutcome
              (afterFlags (effectiveOptions opt (pre ++ t :: post)) t (initState true))
              (runOneTest (effectiveOptions opt (pre ++ t :: post)) dl t), post, some m⟩ := by
          simp [runLoop, hssf, hsf, hexit]
        rw [heq]
        exact hinst

/-- C6 witness: the amended claim with start marker `b` and no stop
marker over `[a, b, c]`. -/
theorem c6_witness :
    (pyPrefixEq "b" (mkTest "a").name = false) ∧
    (pyPrefixEq "b" (mkTest "b").name = true) ∧
    ((∀ u ∈ [mkTest "a"], ∀ e ∈ (resultOf (runFull { oDefault with startTest := some "b" }
        0 [mkTest "a", mkTest "b", mkTest "c"] (some []))).loop.events,
        eventName e ≠ some u.name) ∧
      Event.instantiated "b" ∈ (resultOf (runFull { oDefault with startTest := some "b" }
        0 [mkTest "a", mkTest "b", mkTest "c"] (some []))).loop.events) := by
  refine ⟨by decide, by decide, ?_⟩
  have h := c6_theorem { oDefault with startTest := some "b" } 0 (some [])
    (resultOf (runFull { oDefault with startTest := some "b" } 0
      [mkTest "a", mkTest "b", mkTest "c"] (some [])))
    "b" [mkTest "a"] (mkTest "b") [mkTest "c"] rfl
    (by decide) (by decide) (by decide) (by rfl)
  exact ⟨h.1, h.2 (fun q hq => by cases hq)⟩

end Mut